import Mathlib

/-
  Verification development for the pws-api-wrapper library.

  The library maps six REST resources (Engagement, Host, Port, Finding,
  NotePage, Scratchpad) onto plain Python objects.  Each resource class
  validates a dictionary of fields at construction time, derives address
  strings from its identity / parent-identifier fields, serializes itself
  back to a JSON mapping with `to_dict`, and performs CRUD operations over
  HTTP, branching on the response status code.

  This file is a shallow embedding of that code:
  * Python runtime values are modelled by `PWS.Value`;
  * a Python instance `__dict__` is an insertion-ordered association list
    (`PWS.PyObj`);
  * exceptions become the `PWS.PyError` sum, and every fallible piece of
    code returns `Except PyError _`;
  * `datetime.strptime` / `datetime.strftime` for the two format strings
    the code uses are implemented character by character;
  * `ipaddress.ip_address` (parsing and the canonical string form) is
    implemented following the CPython `ipaddress` module algorithms;
  * the declarative `schema.Schema` rule sets of each resource become
    tables of `PWS.Rule`s interpreted by `PWS.schemaValidate`.
-/

set_option linter.unusedVariables false

namespace PWS

/-! ## Characters, digits and small string helpers -/

/-- Numeric value of a decimal digit character. -/
def digitVal (c : Char) : Nat := c.toNat - '0'.toNat

/-- Decimal digit character for `n < 10`. -/
def digitChar (n : Nat) : Char := Char.ofNat ('0'.toNat + n)

/-- Fold a list of decimal digit characters into the number they denote. -/
def charsToNat (cs : List Char) : Nat :=
  cs.foldl (fun acc c => acc * 10 + digitVal c) 0

/-- Fuel-driven decimal rendering of a natural number (most significant digit
first).  Fuel `30` is far more than any number the model manipulates. -/
def natToCharsAux : Nat → Nat → List Char → List Char
  | 0, _, acc => acc
  | fuel + 1, n, acc =>
    if n < 10 then digitChar n :: acc
    else natToCharsAux fuel (n / 10) (digitChar (n % 10) :: acc)

def natToChars (n : Nat) : List Char := natToCharsAux 30 n []

def natToStr (n : Nat) : String := String.mk (natToChars n)

/-- Python `str` of an `int` (sign handling as in CPython `repr`). -/
def intToStr (n : Int) : String :=
  if n < 0 then "-" ++ natToStr n.natAbs else natToStr n.natAbs

/-- Zero-pad a digit list on the left to width `w`. -/
def padLeft (w : Nat) (cs : List Char) : List Char :=
  List.replicate (w - cs.length) '0' ++ cs

/-- Render `n` zero-padded to width `w` (as `%0wd` in `strftime`). -/
def padNum (w n : Nat) : List Char := padLeft w (natToChars n)

/-- Model of Python `str.startswith` (on the underlying character list). -/
def strStartsWith (s pre : String) : Bool := pre.data.isPrefixOf s.data

/-- Model of Python `str.endswith` (on the underlying character list). -/
def strEndsWith (s suf : String) : Bool := suf.data.isSuffixOf s.data

/-! ## Datetimes

The wrapper only ever builds timezone-aware datetimes through
`datetime.strptime(value.replace("Z", "+0000"), "%Y-%m-%dT%H:%M:%S.%f%z")`,
so the offset is always `+0000`; the structure therefore omits the tzinfo
field and keeps the civil fields and the microsecond count. -/

structure DateTime where
  year : Nat
  month : Nat
  day : Nat
  hour : Nat
  minute : Nat
  second : Nat
  microsecond : Nat
deriving Repr, DecidableEq

/-- Gregorian leap year, as in Python's `calendar.isleap` /
`datetime._is_leap`. -/
def isLeap (y : Nat) : Bool := y % 4 == 0 && (y % 100 != 0 || y % 400 == 0)

/-- Days in a month, as in `datetime._days_in_month`. -/
def daysInMonth (y m : Nat) : Nat :=
  if m == 2 then (if isLeap y then 29 else 28)
  else if m == 4 || m == 6 || m == 9 || m == 11 then 30
  else 31

/-- Greedily take at most `n` leading decimal digits. -/
def takeDigits : Nat → List Char → (List Char × List Char)
  | 0, cs => ([], cs)
  | _ + 1, [] => ([], [])
  | n + 1, c :: cs =>
    if c.isDigit then
      let (ds, rest) := takeDigits n cs
      (c :: ds, rest)
    else ([], c :: cs)

/-- `%Y` in `_strptime` is the regex `\d\d\d\d`: exactly four digits. -/
def parseYear (cs : List Char) : Option (Nat × List Char) :=
  let (ds, rest) := takeDigits 4 cs
  if ds.length == 4 then some (charsToNat ds, rest) else none

/-- One- or two-digit numeric directive (`%m`, `%d`, `%H`, `%M`, `%S`).
`_strptime` compiles these to alternations such as `1[0-2]|0[1-9]|[1-9]`;
because in the format at hand every such field is followed by a
non-digit separator, greedy "take up to two digits, then range-check"
accepts exactly the same strings. -/
def parseNum2 (lo hi : Nat) (cs : List Char) : Option (Nat × List Char) :=
  let (ds, rest) := takeDigits 2 cs
  if ds.isEmpty then none
  else
    let n := charsToNat ds
    if lo ≤ n ∧ n ≤ hi then some (n, rest) else none

/-- `%f`: one to six digits, right-padded to microseconds
(`value * 10 ^ (6 - len)`). -/
def parseMicro (cs : List Char) : Option (Nat × List Char) :=
  let (ds, rest) := takeDigits 6 cs
  if ds.isEmpty then none
  else some (charsToNat ds * 10 ^ (6 - ds.length), rest)

/-- Expect one literal character. -/
def parseLit (c : Char) (cs : List Char) : Option (List Char) :=
  match cs with
  | [] => none
  | c' :: rest => if c' = c then some rest else none

/-- `%z`: the code always feeds `+0000` (after `.replace("Z", "+0000")`), so
only the sign-plus-four-digits form of the directive is modelled (minutes
capped at 59 as in the `[+-]\d\d:?[0-5]\d` regex); the model requires a zero
offset, which is the only offset the library ever produces. -/
def parseTzZero (cs : List Char) : Option (List Char) :=
  match cs with
  | s :: rest =>
    if s = '+' ∨ s = '-' then
      let (ds, rest') := takeDigits 4 rest
      if ds.length == 4 ∧ charsToNat ds == 0 then some rest' else none
    else none
  | [] => none

/-- `str.replace("Z", "+0000")` specialised to the one-character pattern. -/
def replaceZ (cs : List Char) : List Char :=
  cs.foldr (fun c acc =>
    if c = 'Z' then '+' :: '0' :: '0' :: '0' :: '0' :: acc else c :: acc) []

/-- `datetime.strptime(s.replace("Z", "+0000"), "%Y-%m-%dT%H:%M:%S.%f%z")`.
`none` models the `ValueError` raised on a non-matching string (including
"unconverted data remains" when the match is not the whole string, and the
day/second validation performed by the `datetime` constructor). -/
def strptimeTZ (s : String) : Option DateTime := do
  let cs := replaceZ s.data
  let (y, cs) ← parseYear cs
  let cs ← parseLit '-' cs
  let (mo, cs) ← parseNum2 1 12 cs
  let cs ← parseLit '-' cs
  let (d, cs) ← parseNum2 1 31 cs
  let cs ← parseLit 'T' cs
  let (h, cs) ← parseNum2 0 23 cs
  let cs ← parseLit ':' cs
  let (mi, cs) ← parseNum2 0 59 cs
  let cs ← parseLit ':' cs
  let (sec, cs) ← parseNum2 0 61 cs
  let cs ← parseLit '.' cs
  let (us, cs) ← parseMicro cs
  let cs ← parseTzZero cs
  if cs.isEmpty ∧ 1 ≤ y ∧ d ≤ daysInMonth y mo ∧ sec ≤ 59 then
    some ⟨y, mo, d, h, mi, sec, us⟩
  else none

/-- `datetime.strftime(value, "%Y-%m-%dT%H:%M:%S.%f")`. -/
def strftimeNoTZ (d : DateTime) : List Char :=
  padNum 4 d.year ++ '-' :: padNum 2 d.month ++ '-' :: padNum 2 d.day ++
  'T' :: padNum 2 d.hour ++ ':' :: padNum 2 d.minute ++ ':' :: padNum 2 d.second ++
  '.' :: padNum 6 d.microsecond

/-- The `to_dict` timestamp rendering: `strftime(...)`, strip the last three
digits of the microseconds, append `Z` (`f"{time[:-3]}Z"`). -/
def dtWire (d : DateTime) : String :=
  let cs := strftimeNoTZ d
  String.mk (cs.take (cs.length - 3) ++ ['Z'])

/-! ## Python values, objects and exceptions -/

/-- The Python runtime values the wrapper manipulates.  Floats are carried
as their literal rendering: the code never computes with them, it only
type-tests them (`schema`'s `float` check and `to_dict`'s isinstance
cascade). -/
inductive Value where
  | str (s : String)
  | bool (b : Bool)
  | int (n : Int)
  | float (lit : String)
  | list (xs : List Value)
  | dict (entries : List (String × Value))
  | dt (d : DateTime)
  | none
deriving Repr

/-- Structural equality test mirroring Python `==` on the values above. -/
def Value.beq : Value → Value → Bool
  | .str a, .str b => a == b
  | .bool a, .bool b => a == b
  | .int a, .int b => a == b
  | .float a, .float b => a == b
  | .list a, .list b => beqList a b
  | .dict a, .dict b => beqEntries a b
  | .dt a, .dt b => a == b
  | .none, .none => true
  | _, _ => false
where
  beqList : List Value → List Value → Bool
    | [], [] => true
    | a :: as', b :: bs => Value.beq a b && beqList as' bs
    | _, _ => false
  beqEntries : List (String × Value) → List (String × Value) → Bool
    | [], [] => true
    | (ka, va) :: as', (kb, vb) :: bs => ka == kb && Value.beq va vb && beqEntries as' bs
    | _, _ => false

instance : BEq Value := ⟨Value.beq⟩

/-- Python truthiness (`if value:`) for the values above. -/
def truthy : Value → Bool
  | .str s => s != ""
  | .bool b => b
  | .int n => n != 0
  | .float lit => lit != "0.0"
  | .list xs => !xs.isEmpty
  | .dict es => !es.isEmpty
  | .dt _ => true
  | .none => false

/-- An instance `__dict__`: an insertion-ordered association list. -/
abbrev PyObj := List (String × Value)

/-- Attribute lookup (first binding wins; bindings are never duplicated by
the modelled code). -/
def pyLookup (o : PyObj) (k : String) : Option Value :=
  match o with
  | [] => Option.none
  | (k', v) :: rest => if k' = k then some v else pyLookup rest k

/-- `setattr`: overwrite an existing binding in place, else append. -/
def pySetattr (o : PyObj) (k : String) (v : Value) : PyObj :=
  match o with
  | [] => [(k, v)]
  | (k', v') :: rest =>
    if k' = k then (k, v) :: rest else (k', v') :: pySetattr rest k v

/-- The exceptions the modelled code can raise. -/
inductive PyError where
  | schemaError (msg : String)
  | valueError (msg : String)
  | typeError (msg : String)
  | attributeError (attr : String)
  | keyError (key : String)
  | indexError
  | unboundLocal (name : String)
  | systemExit (status : Nat)
deriving Repr, DecidableEq

/-- Attribute access `self.k`, raising `AttributeError` when absent. -/
def getattr (o : PyObj) (k : String) : Except PyError Value :=
  match pyLookup o k with
  | some v => .ok v
  | Option.none => .error (.attributeError k)

/-- `del d[k]` on a mapping, raising `KeyError` when absent. -/
def delKey (o : List (String × Value)) (k : String) : Except PyError (List (String × Value)) :=
  match pyLookup o k with
  | some _ => .ok (o.filter (fun p => p.1 ≠ k))
  | Option.none => .error (.keyError k)

/-- F-string rendering of the values that actually reach a message
f-string in the code (names, ids, titles, targets, ports, server `msg`
fields).  Lists/dicts never reach one on the modelled paths; they are given
a placeholder rendering. -/
def fStr : Value → String
  | .str s => s
  | .int n => intToStr n
  | .bool b => if b then "True" else "False"
  | .float lit => lit
  | .none => "None"
  | .dt d => String.mk (strftimeNoTZ d)
  | .list _ => "<list>"
  | .dict _ => "<dict>"

/-! ## The serializer `AbstractEndpoint.to_dict`

Iterates the instance `__dict__` in insertion order; datetimes are rendered
through the wire format; strings are kept unless the attribute name starts
with `__` or ends with `path`; booleans, integers and lists are kept; every
other value (floats, `None`, dicts) is silently dropped. -/

def toDict : PyObj → List (String × Value)
  | [] => []
  | (k, v) :: rest =>
    match v with
    | .dt d => (k, .str (dtWire d)) :: toDict rest
    | .str s =>
      if strStartsWith k "__" || strEndsWith k "path" then toDict rest
      else (k, .str s) :: toDict rest
    | .bool b => (k, .bool b) :: toDict rest
    | .int n => (k, .int n) :: toDict rest
    | .list xs => (k, .list xs) :: toDict rest
    | _ => toDict rest

/-- `AbstractEndpoint.path`. -/
def basePath : String := "https://pentest.ws/api/v1"

/-- An HTTP response as the code observes it: the status code and the
already-decoded `response.json()` value. -/
structure Response where
  status : Nat
  body : Value

/-! ## Engagement

`Engagement.__init__(self, name, id="", created_at="", notes="",
client_id="", archived="")` stores `id` only when it differs from `""`,
always stores `name`, `notes` and `client_id`, and parses `created_at` /
`archived` through `strptime` when they are neither `""` nor `None`. -/

/-- The `created_at` / `archived` handling: skipped for `""` and `None`;
for any other non-string the attempted `.replace` raises
`AttributeError`; a non-matching string raises `ValueError` from
`strptime`. -/
def parseTimestampArg (v : Value) : Except PyError (Option DateTime) :=
  match v with
  | .str s =>
    if s = "" then .ok Option.none
    else
      match strptimeTZ s with
      | some d => .ok (some d)
      | Option.none =>
        .error (.valueError ("time data '" ++ s ++
          "' does not match format '%Y-%m-%dT%H:%M:%S.%f%z'"))
  | .none => .ok Option.none
  | _ => .error (.attributeError "replace")

/-- `Engagement.__init__`; the result is the instance `__dict__` in
insertion order. -/
def Engagement.init (name id created_at notes client_id archived : Value) :
    Except PyError PyObj := do
  let attrs : PyObj :=
    (if id == Value.str "" then [] else [("id", id)]) ++
    [("name", name), ("notes", notes), ("client_id", client_id)]
  let ca ← parseTimestampArg created_at
  let attrs := match ca with
    | some d => attrs ++ [("created_at", Value.dt d)]
    | Option.none => attrs
  let ar ← parseTimestampArg archived
  let attrs := match ar with
    | some d => attrs ++ [("archived", Value.dt d)]
    | Option.none => attrs
  pure attrs

/-! ## The `ipaddress` module (the parts `Host` uses)

`Host`'s `target` field runs `str(ip_address(ip))`.  The parsing and the
canonical string form follow the CPython `ipaddress` module:
`IPv4Address._ip_int_from_string` / `_parse_octet`,
`IPv6Address._ip_int_from_string` / `_parse_hextet` / `_split_scope_id`,
and `_string_from_ip_int` / `_compress_hextets` for printing. -/

/-- `str.split(sep)` for a one-character separator (never returns `[]`). -/
def splitOnChar (sep : Char) : List Char → List (List Char)
  | [] => [[]]
  | c :: rest =>
    let r := splitOnChar sep rest
    if c = sep then [] :: r
    else
      match r with
      | h :: t => (c :: h) :: t
      | [] => [[c]]

/-- Break a character list at the first occurrence of `c`
(Python `str.partition`). -/
def breakAtChar (c : Char) : List Char → Option (List Char × List Char)
  | [] => Option.none
  | x :: xs =>
    if x = c then some ([], xs)
    else (breakAtChar c xs).map (fun p => (x :: p.1, p.2))

def isHexChar (c : Char) : Bool :=
  c.isDigit || ('a' ≤ c && c ≤ 'f') || ('A' ≤ c && c ≤ 'F')

def hexVal (c : Char) : Nat :=
  if c.isDigit then digitVal c
  else if 'a' ≤ c then c.toNat - 'a'.toNat + 10
  else c.toNat - 'A'.toNat + 10

def charsToHexNat (cs : List Char) : Nat :=
  cs.foldl (fun acc c => acc * 16 + hexVal c) 0

def hexDigitChar (n : Nat) : Char :=
  if n < 10 then digitChar n else Char.ofNat ('a'.toNat + (n - 10))

/-- Lowercase hexadecimal rendering of a natural number (`'%x' % n`). -/
def natToHexAux : Nat → Nat → List Char → List Char
  | 0, _, acc => acc
  | fuel + 1, n, acc =>
    if n < 16 then hexDigitChar n :: acc
    else natToHexAux fuel (n / 16) (hexDigitChar (n % 16) :: acc)

def natToHex (n : Nat) : List Char := natToHexAux 40 n []

/-- `IPv4Address._parse_octet`: non-empty, decimal digits only, at most
three characters, value at most 255, and no leading zero. -/
def parseOctet (cs : List Char) : Option Nat :=
  if cs.isEmpty then Option.none
  else if !cs.all Char.isDigit then Option.none
  else if cs.length > 3 then Option.none
  else
    let n := charsToNat cs
    if n > 255 then Option.none
    else if cs.length > 1 && cs.headD '0' = '0' then Option.none
    else some n

/-- `IPv4Address._ip_int_from_string`: exactly four octets. -/
def parseIPv4 (cs : List Char) : Option Nat :=
  match splitOnChar '.' cs with
  | [a, b, c, d] => do
    let a ← parseOctet a
    let b ← parseOctet b
    let c ← parseOctet c
    let d ← parseOctet d
    some (((a * 256 + b) * 256 + c) * 256 + d)
  | _ => Option.none

/-- `IPv6Address._parse_hextet`: non-empty, hex digits only, at most four
characters. -/
def parseHextet (cs : List Char) : Option Nat :=
  if cs.isEmpty then Option.none
  else if !cs.all isHexChar then Option.none
  else if cs.length > 4 then Option.none
  else some (charsToHexNat cs)

/-- Fold a run of hextet parts into the accumulated integer
(`ip_int <<= 16; ip_int |= parse_hextet(...)`). -/
def combineParts (acc : Nat) : List (List Char) → Option Nat
  | [] => some acc
  | p :: rest =>
    match parseHextet p with
    | some v => combineParts (acc * 65536 + v) rest
    | Option.none => Option.none

/-- Indices (into the full parts list, starting at `i0`) of the empty
parts. -/
def emptyIndices (i0 : Nat) : List (List Char) → List Nat
  | [] => []
  | p :: rest =>
    if p.isEmpty then i0 :: emptyIndices (i0 + 1) rest
    else emptyIndices (i0 + 1) rest

/-- `IPv6Address._ip_int_from_string`: split on `:`, optionally expand a
trailing embedded IPv4 address into two hextets, locate the at-most-one
`::` skip position among the interior parts, and fold the hextets around
it. -/
def parseIPv6Core (cs : List Char) : Option Nat := do
  let parts0 := splitOnChar ':' cs
  if parts0.length < 3 then failure
  let parts ←
    match parts0.getLast? with
    | some last =>
      if last.contains '.' then
        match parseIPv4 last with
        | some v4 =>
          some (parts0.dropLast ++ [natToHex (v4 / 65536), natToHex (v4 % 65536)])
        | Option.none => Option.none
      else some parts0
    | Option.none => Option.none
  if parts.length > 9 then failure
  match emptyIndices 1 ((parts.drop 1).dropLast) with
  | [] =>
    -- no `::`: exactly eight parts, none of them empty at either end
    if parts.length == 8 ∧ !(parts.headD ['x']).isEmpty ∧ !(parts.getLastD ['x']).isEmpty then
      combineParts 0 parts
    else failure
  | [i] => do
    -- `parts_hi = skip_index`, decremented (and required to hit zero) when
    -- the address starts with `:`; symmetrically for `parts_lo`
    let hi ←
      if (parts.headD []).isEmpty then (if i - 1 == 0 then some 0 else Option.none)
      else some i
    let lo ←
      if (parts.getLastD []).isEmpty then
        (if parts.length - i - 1 - 1 == 0 then some 0 else Option.none)
      else some (parts.length - i - 1)
    let skipped := 8 - (hi + lo)
    if hi + lo > 7 then failure
    let hiVal ← combineParts 0 (parts.take hi)
    let loVal ← combineParts 0 (parts.drop (parts.length - lo))
    some (hiVal * 2 ^ (16 * (skipped + lo)) + loVal)
  | _ => failure

/-- `IPv6Address._split_scope_id` followed by the core parse. -/
def parseIPv6 (cs : List Char) : Option (Nat × Option String) := do
  let (addr, scope) ←
    match breakAtChar '%' cs with
    | Option.none => some (cs, (Option.none : Option String))
    | some (a, rest) =>
      if rest.isEmpty || rest.contains '%' then Option.none
      else some (a, some (String.mk rest))
  let n ← parseIPv6Core addr
  some (n, scope)

/-- A parsed IP address. -/
inductive IPAddr where
  | v4 (n : Nat)
  | v6 (n : Nat) (scope : Option String)
deriving Repr, DecidableEq

/-- `IPv4Address(addr_str)`: the constructor first rejects any string
containing `'/'` (`Unexpected '/' in ...`), then parses. -/
def ipv4AddressOfString (cs : List Char) : Option Nat :=
  if cs.contains '/' then Option.none else parseIPv4 cs

/-- `IPv6Address(addr_str)`: the same `'/'` guard runs before the scope
split, so a slash anywhere — including inside a would-be scope id — is
rejected; then `_split_scope_id` and the core parse (scope ids as in
Python 3.9+). -/
def ipv6AddressOfString (cs : List Char) : Option (Nat × Option String) :=
  if cs.contains '/' then Option.none else parseIPv6 cs

/-- `ipaddress.ip_address` on a string: first `IPv4Address`, then
`IPv6Address`; `none` models the `ValueError`. -/
def ipAddress (s : String) : Option IPAddr :=
  match ipv4AddressOfString s.data with
  | some n => some (.v4 n)
  | Option.none =>
    match ipv6AddressOfString s.data with
    | some (n, sc) => some (.v6 n sc)
    | Option.none => Option.none

def joinSep (sep : String) : List String → String
  | [] => ""
  | [x] => x
  | x :: xs => x ++ sep ++ joinSep sep xs

/-- The scan of `_compress_hextets`: the leftmost longest run of `"0"`
hextets (a later run replaces the best only when strictly longer).
Returns `(best_start, best_len)`. -/
def bestRun : List String → Nat → Option Nat → Nat → Nat → Nat → Nat × Nat
  | [], _, _, _, bs, bl => (bs, bl)
  | h :: t, i, curStart, curLen, bs, bl =>
    if h = "0" then
      let cs := curStart.getD i
      let cl := curLen + 1
      if cl > bl then bestRun t (i + 1) (some cs) cl cs cl
      else bestRun t (i + 1) (some cs) cl bs bl
    else bestRun t (i + 1) Option.none 0 bs bl

/-- The eight 16-bit groups of a 128-bit integer. -/
def hextetsOf (n : Nat) : List Nat :=
  [n / 2 ^ 112 % 65536, n / 2 ^ 96 % 65536, n / 2 ^ 80 % 65536,
   n / 2 ^ 64 % 65536, n / 2 ^ 48 % 65536, n / 2 ^ 32 % 65536,
   n / 2 ^ 16 % 65536, n % 65536]

/-- `IPv6Address._string_from_ip_int`: lowercase, zero-suppressed hextets
with the best zero run compressed to `::`. -/
def v6Str (n : Nat) : String :=
  let hx := (hextetsOf n).map (fun h => String.mk (natToHex h))
  let (bs, bl) := bestRun hx 0 Option.none 0 0 0
  if bl > 1 then
    joinSep ":" ((if bs == 0 then [""] else []) ++ hx.take bs ++ [""] ++
      hx.drop (bs + bl) ++ (if bs + bl == 8 then [""] else []))
  else joinSep ":" hx

def v4Str (n : Nat) : String :=
  natToStr (n / 16777216 % 256) ++ "." ++ natToStr (n / 65536 % 256) ++ "." ++
  natToStr (n / 256 % 256) ++ "." ++ natToStr (n % 256)

/-- `str(...)` of a parsed address: the canonical form. -/
def strOfIP : IPAddr → String
  | .v4 n => v4Str n
  | .v6 n (some sc) => v6Str n ++ "%" ++ sc
  | .v6 n Option.none => v6Str n

/-! ## The `schema` library, as the wrapper uses it

Every schema in the code is a dict whose keys are field names (required,
or wrapped in `Optional`) and whose values are `And` / `Or` combinations
of type checks, `Regex`, enumeration predicates and one `Use`, each with
an `error=` message.  Such a schema is a table of `Rule`s: per field a
required flag, an accept-and-transform function (`none` = the combination
fails) and the associated error message.

`Schema.validate` on a dict walks the supplied mapping in insertion
order, validating each value against its matching rule and raising
`SchemaError(rule.error)` at the first failing value; afterwards it
raises for missing required keys, then for keys matching no rule. -/

structure Rule where
  key : String
  required : Bool
  check : Value → Option Value
  err : String

def findRule (rules : List Rule) (k : String) : Option Rule :=
  match rules with
  | [] => Option.none
  | r :: rest => if r.key = k then some r else findRule rest k

def validateItems (rules : List Rule) : PyObj → Except PyError PyObj
  | [] => .ok []
  | (k, v) :: rest =>
    match findRule rules k with
    | some r =>
      match r.check v with
      | some v' => (validateItems rules rest).map (fun t => (k, v') :: t)
      | Option.none => .error (.schemaError r.err)
    | Option.none => validateItems rules rest

def hasKey (kwargs : PyObj) (k : String) : Bool := kwargs.any (fun p => p.1 == k)

def firstMissing (rules : List Rule) (kwargs : PyObj) : Option String :=
  match rules with
  | [] => Option.none
  | r :: rest =>
    if r.required && !hasKey kwargs r.key then some r.key
    else firstMissing rest kwargs

def firstWrong (rules : List Rule) : PyObj → Option String
  | [] => Option.none
  | (k, _) :: rest =>
    if (findRule rules k).isNone then some k else firstWrong rules rest

def schemaValidate (rules : List Rule) (kwargs : PyObj) : Except PyError PyObj := do
  let va ← validateItems rules kwargs
  match firstMissing rules kwargs with
  | some k => .error (.schemaError ("Missing key: '" ++ k ++ "'"))
  | Option.none =>
    match firstWrong rules kwargs with
    | some k => .error (.schemaError ("Wrong key '" ++ k ++ "'"))
    | Option.none => pure va

/-! ### Field checks -/

def isStrVal : Value → Bool
  | .str _ => true
  | _ => false

/-- `And(str, ...)`-style plain string check. -/
def checkStr (v : Value) : Option Value := if isStrVal v then some v else Option.none

/-- `Or(And(str, ...), None)`. -/
def checkStrOrNone : Value → Option Value
  | .str s => some (.str s)
  | .none => some .none
  | _ => Option.none

/-- `And(bool, ...)`.  (Python `bool` is what `isinstance(x, bool)`
accepts.) -/
def checkBool : Value → Option Value
  | .bool b => some (.bool b)
  | _ => Option.none

/-- `[a-zA-Z0-9]`. -/
def isAlnumChar (c : Char) : Bool :=
  ('a' ≤ c && c ≤ 'z') || ('A' ≤ c && c ≤ 'Z') || c.isDigit

/-- `And(str, Regex(r"^[a-zA-Z0-9]{8,}$"))`: the whole string is at least
eight alphanumeric characters. -/
def checkId8 : Value → Option Value
  | .str s =>
    if s.data.length ≥ 8 && s.data.all isAlnumChar then some (.str s) else Option.none
  | _ => Option.none

/-- `And(str, Regex(r"[a-zA-Z0-9]+"))` via `re.search`: at least one
alphanumeric character somewhere. -/
def checkTitle : Value → Option Value
  | .str s => if s.data.any isAlnumChar then some (.str s) else Option.none
  | _ => Option.none

/-- `Or(And(str, lambda x: x in VALUES), And(None))`. -/
def checkEnumOrNone (vals : List String) : Value → Option Value
  | .str s => if vals.contains s then some (.str s) else Option.none
  | .none => some .none
  | _ => Option.none

/-- The two-column enumerations (`OS_TYPES`, `TYPES` of `host.py`):
`And(str, Or(lambda x: x in firsts, lambda x: x in seconds, PAIRS))`.
The third alternative — the raw list of tuples used as a schema — is an
iterable schema and can never validate a string, so acceptance is
membership in either column. -/
def checkTwoCol (pairs : List (String × String)) : Value → Option Value
  | .str s =>
    if pairs.any (fun p => p.1 == s) || pairs.any (fun p => p.2 == s) then
      some (.str s)
    else Option.none
  | _ => Option.none

/-- `"target": And(str, Use(lambda ip: str(ip_address(ip))))`: the
canonical string of the parsed address replaces the raw input. -/
def checkTarget : Value → Option Value
  | .str s =>
    match ipAddress s with
    | some a => some (.str (strOfIP a))
    | Option.none => Option.none
  | _ => Option.none

/-- `"port": And(int, lambda p: 0 <= p <= 65535)`.  Python `bool` is a
subclass of `int`, and both of its values lie in range. -/
def checkPort : Value → Option Value
  | .int n => if 0 ≤ n ∧ n ≤ 65535 then some (.int n) else Option.none
  | .bool b => some (.bool b)
  | _ => Option.none

/-- `Or(And(float, ...), None)`. -/
def checkFloatOrNone : Value → Option Value
  | .float lit => some (.float lit)
  | .none => some .none
  | _ => Option.none

/-- `Or(And(list, [dict, {str, str}]), None)`: a list each of whose
elements is a dict (the `{str, str}` set schema only validates sets), or
`None`. -/
def checkChecklist : Value → Option Value
  | .list xs =>
    if xs.all (fun x => match x with | .dict _ => true | _ => false) then
      some (.list xs)
    else Option.none
  | .none => some .none
  | _ => Option.none

/-- `Or(And(list, [str]), None)` (`dread`). -/
def checkDread : Value → Option Value
  | .list xs => if xs.all isStrVal then some (.list xs) else Option.none
  | .none => some .none
  | _ => Option.none

/-- `str(LIST)[1:-1]` for a list of plain strings: `'a', 'b', ...`. -/
def reprStrList (xs : List String) : String :=
  joinSep ", " (xs.map (fun s => "'" ++ s ++ "'"))

/-! ## Resource enumerations (`host.py`, `port.py`, `scratchpad.py`,
`notePage.py`, `finding.py`) -/

/-- `host.py` `OS_TYPES`: (icon code, label) pairs. -/
def OS_TYPES : List (String × String) :=
  [("Android", "Android"), ("Apple", "Apple"), ("Linux", "Linux"),
   ("question", "Unknown"), ("Windows", "Windows")]

/-- `host.py` `TYPES`: (icon code, label) pairs. -/
def HOST_TYPES : List (String × String) :=
  [("wifi", "Access Point"), ("volume-up", "Audio"), ("laptop", "Laptop"),
   ("mobile", "Mobile"), ("phone", "Phone"), ("printer", "Printer"),
   ("question", "Unknown"), ("sitemap", "Router"), ("server", "Server"),
   ("tablet", "Tablet"), ("tv", "TV"), ("desktop", "Workstation")]

def PROTOCOLS : List String := ["tcp", "udp"]

def STATUSES : List String := ["Needs Review", "Vulnerable", "Checked", "Owned"]

def STATES : List String :=
  ["open", "filtered", "closed", "unfiltered", "open|filtered", "closed|filtered"]

/-- `scratchpad.py` `LANGUAGES` (transcribed in source order, duplicate
`"sh"` included). -/
def LANGUAGES : List String :=
  [ "abap", "abc", "actionscript", "ada", "apache_conf", "asciidoc", "asl",
   "assembly_x86", "autohotkey", "sh", "batchfile", "bro", "c_cpp",
   "csharp", "c9search", "cirru", "clojure", "cobol", "coffee",
   "coldfusion", "csound_orchestra", "csound_document", "csound_score",
   "css", "curly", "d", "dart", "diff", "django", "dockerfile", "dot",
   "drools", "edifact", "eiffel", "ejs", "elixir", "elm", "erlang", "forth",
   "fortran", "ftl", "fsharp", "gcode", "gherkin", "gitignore", "glsl",
   "golang", "gobstones", "graphqlschema", "groovy", "haml", "handlebars",
   "haskell", "haskell_cabal", "haxe", "hjson", "html", "html_elixir",
   "html_ruby", "ini", "io", "jack", "jade", "java", "javascript", "json",
   "jsoniq", "jsp", "jssm", "jsx", "julia", "kotlin", "latex", "less",
   "liquid", "lisp", "livescript", "logiql", "lsl", "lua", "luapage",
   "lucene", "makefile", "markdown", "mask", "matlab", "maze", "mel",
   "mixal", "mushcode", "mysql", "nix", "nsis", "objectivec", "ocaml",
   "pascal", "perl", "pgsql", "php", "php_laravel_blade", "pig",
   "plain_text", "powershell", "praat", "prolog", "properties", "protobuf",
   "puppet", "python", "r", "razor", "rdoc", "red", "rhtml", "rst", "ruby",
   "rust", "sass", "scad", "scala", "scheme", "scss", "sh", "sjs", "slim",
   "smarty", "snippets", "soy_template", "space", "sql", "sqlserver",
   "stylus", "svg", "swift", "tcl", "terraform", "tex", "text", "textile",
   "toml", "tsx", "twig", "typescript", "vala", "vbscript", "velocity",
   "verilog", "vhdl", "wollok", "xml", "xquery"]

def SCRATCHPAD_TYPES : List String := ["code", "rich"]

def OBJECT_TYPES : List String := ["e", "hosts", "ports"]

/-! ## Rule tables (one per resource schema, in source order) -/

def hostRules : List Rule :=
  [⟨"board_id", false, checkId8, "\"board_id\" should be 8 alphanumeric characters"⟩,
   ⟨"eid", false, checkId8, "\"eid\" should be 8 alphanumeric characters"⟩,
   ⟨"flagged", false, checkBool, "\"flagged\" should be True/False boolean"⟩,
   ⟨"hostnames", false, checkStr, "\"hostnames\" should be a string"⟩,
   ⟨"id", false, checkId8, "\"id\" should be 8 alphanumeric characters"⟩,
   ⟨"label", false, checkStrOrNone, "\"label\" should be a string."⟩,
   ⟨"notes", false, checkStrOrNone, "\"notes\" should be a string"⟩,
   ⟨"os", false, checkStrOrNone, "\"os\" should be a string"⟩,
   ⟨"os_type", false, checkTwoCol OS_TYPES, "Not a valid \"os_type\"."⟩,
   ⟨"out_of_scope", false, checkBool, "\"out_of_scope\" should be True/False boolean"⟩,
   ⟨"owned", false, checkBool, "\"owned\" should be True/False boolean"⟩,
   ⟨"reviewed", false, checkBool, "\"reviewed\" should be True/False boolean"⟩,
   ⟨"shell", false, checkBool, "\"shell\" should be True/False boolean"⟩,
   ⟨"target", true, checkTarget, "Target should be a valid IPv4 Address"⟩,
   ⟨"thumbs_down", false, checkBool, "\"thumbs_down\" should be True/False boolean"⟩,
   ⟨"thumbs_up", false, checkBool, "\"thumbs_up\" should be True/False boolean"⟩,
   ⟨"type", false, checkTwoCol HOST_TYPES, "Not a valid \"type\"."⟩]

def portRules : List Rule :=
  [⟨"checklist", false, checkChecklist, "\"checklist\" should be a list of dictionaries."⟩,
   ⟨"hid", false, checkId8, "\"hid\" should be 8 alphanumeric characters"⟩,
   ⟨"id", false, checkId8, "\"id\" should be 8 alphanumeric characters"⟩,
   ⟨"port", true, checkPort, "\"port\" should be an intiger between 0 and 65,535."⟩,
   ⟨"proto", false, checkEnumOrNone PROTOCOLS, "\"proto\" should be \"tcp\", \"udp\", or None"⟩,
   ⟨"service", false, checkStrOrNone, "\"service\" should be a string."⟩,
   ⟨"status", false, checkEnumOrNone STATUSES, "Not a valid \"status\"."⟩,
   ⟨"state", false, checkEnumOrNone STATES, "Not a valid \"state\"."⟩,
   ⟨"notes", false, checkStrOrNone, "\"notes\" should be a string"⟩,
   ⟨"version", false, checkStrOrNone, "\"version\" should be a string"⟩]

def findingRules : List Rule :=
  [⟨"id", false, checkId8, "\"id\" should be 8 alphanumeric characters"⟩,
   ⟨"eid", false, checkId8, "\"e\" should be 8 alphanumeric characters"⟩,
   ⟨"finding_id", false, checkStrOrNone, "\"finding_id\" should be a string"⟩,
   ⟨"title", true, checkTitle, "Finding \"title\" is required."⟩,
   ⟨"environment", false, checkStrOrNone, "\"environment\" should be a string"⟩,
   ⟨"category", false, checkStrOrNone, "\"category\" should be a string"⟩,
   ⟨"risk_level", false, checkStrOrNone, "\"risk_level\" should be a string"⟩,
   ⟨"cvss2_num", false, checkFloatOrNone, "\"cvss2_num\" should be a string"⟩,
   ⟨"cvss2_str", false, checkStrOrNone, "\"cvss2_str\" should be a string"⟩,
   ⟨"cvss3_num", false, checkFloatOrNone, "\"cvss3_num\" should be a string"⟩,
   ⟨"cvss3_str", false, checkStrOrNone, "\"cvss3_str\" should be a string"⟩,
   ⟨"dread", false, checkDread, "\"dread\" should be a list of strings."⟩,
   ⟨"background", false, checkStrOrNone, "\"background\" should be a string"⟩,
   ⟨"desc_brief", false, checkStrOrNone, "\"desc_brief\" should be a string"⟩,
   ⟨"desc_full", false, checkStrOrNone, "\"desc_full\" should be a string"⟩,
   ⟨"impact_brief", false, checkStrOrNone, "\"impact_brief\" should be a string"⟩,
   ⟨"impact_full", false, checkStrOrNone, "\"impact_full\" should be a string"⟩,
   ⟨"reco_brief", false, checkStrOrNone, "\"reco_brief\" should be a string"⟩,
   ⟨"reco_full", false, checkStrOrNone, "\"reco_full\" should be a string"⟩,
   ⟨"reco_effort", false, checkStrOrNone, "\"reco_effort\" should be a string"⟩,
   ⟨"targets", false, checkStrOrNone, "\"targets\" should be a string"⟩,
   ⟨"references", false, checkStrOrNone, "\"references\" should be a string"⟩,
   ⟨"evidence", false, checkStrOrNone, "\"evidence\" should be a string"⟩,
   ⟨"validation_steps", false, checkStrOrNone, "\"validation_steps\" should be a string"⟩,
   ⟨"remediation_log", false, checkStrOrNone, "\"remediation_log\" should be a string"⟩,
   ⟨"created_at", false, checkStrOrNone, "\"created_at\" should be a string"⟩]

def scratchpadRules : List Rule :=
  [⟨"hid", false, checkId8, "\"hid\" should be 8 alphanumeric characters"⟩,
   ⟨"id", false, checkId8, "\"id\" should be 8 alphanumeric characters"⟩,
   ⟨"title", true, checkTitle, "Scratchpad \"title\" is required."⟩,
   ⟨"type", false, checkEnumOrNone SCRATCHPAD_TYPES,
     "\"type\" should be None or one of the following: " ++ reprStrList SCRATCHPAD_TYPES⟩,
   ⟨"language", false, checkEnumOrNone LANGUAGES,
     "\"language\" should be None or one of the following: " ++ reprStrList LANGUAGES⟩,
   ⟨"content", false, checkStrOrNone, "\"contented\" should be a string or None."⟩]

/-- `notePage.py` `otype`: `And(str, Or(lambda x: x in [t[0] for t in
OBJECT_TYPES], lambda x: x in [t[1] for t in OBJECT_TYPES],
OBJECT_TYPES))`.  `OBJECT_TYPES` is a list of strings, so `t[0]` is the
first character of each entry (`["e", "h", "p"]`); the second lambda
indexes `"e"[1]` and raises `IndexError` on every call, which `schema`
converts to a failed alternative; and the raw list as a schema only
validates lists.  The accepted strings are therefore exactly `"e"`,
`"h"`, `"p"`. -/
def checkOtype : Value → Option Value
  | .str s => if s = "e" ∨ s = "h" ∨ s = "p" then some (.str s) else Option.none
  | _ => Option.none

def notePageRules : List Rule :=
  [⟨"content", false, checkStrOrNone, "\"contented\" should be a string or None."⟩,
   ⟨"id", false, checkId8, "\"id\" should be 8 alphanumeric characters"⟩,
   ⟨"oid", false, checkId8, "\"oid\" should be 8 alphanumeric characters"⟩,
   ⟨"otype", false, checkOtype,
     "\"otype\" should be one of the following: " ++ reprStrList OBJECT_TYPES⟩,
   ⟨"title", true, checkTitle, "Note Page \"title\" is required."⟩]

/-! ## Constructors with path derivation

After `schema.validate`, the accepted items are installed with `setattr`
in order.  The "self" path is then derived inside `try/except
AttributeError`, so a missing identity field is tolerated; the parent
path derivation is a bare `if self.<parent>:` and hence raises
`AttributeError` when the parent-identifier attribute was never set. -/

/-- `try: self.<pathKey> = f(self.id) except AttributeError: pass` —
the "self" address, attached only when the `id` attribute exists. -/
def deriveSelfPath (o : PyObj) (pathKey : String) (f : Value → String) : PyObj :=
  match pyLookup o "id" with
  | some i => o ++ [(pathKey, Value.str (f i))]
  | Option.none => o

/-- `if self.<parentKey>: self.<pathKey> = f(self.<parentKey>)` — a bare
attribute access: `AttributeError` when the parent identifier was never
set, and no path when it is falsy. -/
def deriveParentPath (o : PyObj) (parentKey pathKey : String) (f : Value → String) :
    Except PyError PyObj :=
  match pyLookup o parentKey with
  | Option.none => .error (.attributeError parentKey)
  | some v =>
    .ok (if truthy v then o ++ [(pathKey, Value.str (f v))] else o)

/-- The common `__init__` of `Host`, `Port`, `Finding` and `Scratchpad`:
validate the keyword arguments, install the accepted items, derive the
self path, derive the parent path. -/
def stdInit (rules : List Rule) (selfPk : String) (f1 : Value → String)
    (parentKey parentPk : String) (f2 : Value → String) (kwargs : PyObj) :
    Except PyError PyObj := do
  let va ← schemaValidate rules kwargs
  deriveParentPath (deriveSelfPath va selfPk f1) parentKey parentPk f2

def Host.init : PyObj → Except PyError PyObj :=
  stdInit hostRules "host_path" (fun i => basePath ++ "/hosts/" ++ fStr i)
    "eid" "engagement_path" (fun e => basePath ++ "/e/" ++ fStr e ++ "/hosts")

def Port.init : PyObj → Except PyError PyObj :=
  stdInit portRules "port_path" (fun i => basePath ++ "/ports/" ++ fStr i)
    "hid" "host_path" (fun h => basePath ++ "/hosts/" ++ fStr h ++ "/ports")

def Finding.init : PyObj → Except PyError PyObj :=
  stdInit findingRules "finding_path" (fun i => basePath ++ "/findings/" ++ fStr i)
    "eid" "engagement_path" (fun e => basePath ++ "/e/" ++ fStr e ++ "/findings")

def Scratchpad.init : PyObj → Except PyError PyObj :=
  stdInit scratchpadRules "scratchpad_path" (fun i => basePath ++ "/scratchpads/" ++ fStr i)
    "hid" "host_path" (fun h => basePath ++ "/hosts/" ++ fStr h ++ "/scratchpads")

/-- `NotePage.__init__`'s `if self.oid and self.otype:` — `and`
short-circuits, so `otype` is only looked up when `oid` is truthy; either
bare access raises `AttributeError` when the attribute is missing. -/
def deriveObjectPath (o : PyObj) : Except PyError PyObj :=
  match pyLookup o "oid" with
  | Option.none => .error (.attributeError "oid")
  | some ov =>
    if truthy ov then
      match pyLookup o "otype" with
      | Option.none => .error (.attributeError "otype")
      | some tv =>
        .ok (if truthy tv then
          o ++ [("object_path",
            Value.str (basePath ++ "/" ++ fStr tv ++ "/" ++ fStr ov ++ "/notepages"))]
        else o)
    else .ok o

def NotePage.init (kwargs : PyObj) : Except PyError PyObj := do
  let va ← schemaValidate notePageRules kwargs
  deriveObjectPath (deriveSelfPath va "notepad_path" (fun i => basePath ++ "/notepages/" ++ fStr i))

/-! ## HTTP operations -/

/-- `Response.raise_for_status`: an `HTTPError` carries status codes in
[400, 600). -/
def raiseForStatus (r : Response) : Option Nat :=
  if 400 ≤ r.status ∧ r.status < 600 then some r.status else Option.none

/-- `Cls(**response.json())`: the decoded body must be a mapping. -/
def asKwargs (v : Value) : Except PyError PyObj :=
  match v with
  | .dict es => .ok es
  | _ => .error (.typeError "argument after ** must be a mapping")

/-- `value[k]` for a decoded JSON value: `KeyError` on a missing dict
key, `TypeError` on a non-dict. -/
def subscript (v : Value) (k : String) : Except PyError Value :=
  match v with
  | .dict es =>
    match pyLookup es k with
    | some x => .ok x
    | Option.none => .error (.keyError k)
  | _ => .error (.typeError "indices must be integers")

/-- `Host.get`: `raise_for_status` inside `try`, `raise SystemExit(err)`
on `HTTPError`, else rebuild a `Host` from the body. -/
def Host.get (hid : String) (resp : Response) : Except PyError PyObj :=
  match raiseForStatus resp with
  | some code => .error (.systemExit code)
  | Option.none => do
    let kwargs ← asKwargs resp.body
    Host.init kwargs

def Port.get (pid : String) (resp : Response) : Except PyError PyObj :=
  match raiseForStatus resp with
  | some code => .error (.systemExit code)
  | Option.none => do
    let kwargs ← asKwargs resp.body
    Port.init kwargs

def Scratchpad.get (id : String) (resp : Response) : Except PyError PyObj :=
  match raiseForStatus resp with
  | some code => .error (.systemExit code)
  | Option.none => do
    let kwargs ← asKwargs resp.body
    Scratchpad.init kwargs

def NotePage.get (id : String) (resp : Response) : Except PyError PyObj :=
  match raiseForStatus resp with
  | some code => .error (.systemExit code)
  | Option.none => do
    let kwargs ← asKwargs resp.body
    NotePage.init kwargs

/-- `Engagement.get_all`: returns `response.json()` as is, with no status
check. -/
def Engagement.getAll (resp : Response) : Value := resp.body

/-- The filter step of `Engagement.get_eid`:
`filter(lambda e: e["name"] == name, engagements)`.  Subscripting a
non-dict element raises `TypeError`; a dict without `"name"` raises
`KeyError`. -/
def filterByName (name : String) : List Value → Except PyError (List Value)
  | [] => .ok []
  | e :: rest => do
    let v ← subscript e "name"
    let tail ← filterByName name rest
    pure (if Value.beq v (.str name) then e :: tail else tail)

/-- `Engagement.get_eid`: fetch all engagements, linearly scan for the
first exact name match, and take its `"id"`; `[0]` on no match raises
`IndexError`.  No status check. -/
def Engagement.getEid (name : String) (allResp : Response) : Except PyError Value := do
  match Engagement.getAll allResp with
  | .list es => do
    let found ← filterByName name es
    match found with
    | [] => .error .indexError
    | first :: _ => subscript first "id"
  | _ => .error (.typeError "object is not iterable")

/-- `Engagement(**kwargs)`: keyword arguments must be parameters of
`Engagement.__init__`; `name` has no default. -/
def Engagement.fromKwargs (kwargs : PyObj) : Except PyError PyObj :=
  if kwargs.any (fun p =>
      !(["name", "id", "created_at", "notes", "client_id", "archived"].contains p.1)) then
    .error (.typeError "got an unexpected keyword argument")
  else if !hasKey kwargs "name" then
    .error (.typeError "missing a required argument: 'name'")
  else
    Engagement.init
      ((pyLookup kwargs "name").getD (Value.str ""))
      ((pyLookup kwargs "id").getD (Value.str ""))
      ((pyLookup kwargs "created_at").getD (Value.str ""))
      ((pyLookup kwargs "notes").getD (Value.str ""))
      ((pyLookup kwargs "client_id").getD (Value.str ""))
      ((pyLookup kwargs "archived").getD (Value.str ""))

/-- `Engagement.get`: name → eid via `get_eid`, then a plain
`session.get` whose decoded body is handed to the constructor.  Unlike
the other resources there is no `raise_for_status` / `SystemExit`
handling: the response status is never inspected. -/
def Engagement.get (name : String) (allResp getResp : Response) :
    Except PyError PyObj := do
  let _eid ← Engagement.getEid name allResp
  let kwargs ← asKwargs getResp.body
  Engagement.fromKwargs kwargs

/-- `Engagement.delete`: the URL interpolates `self.id`; status 200 and
404 produce messages, any other status leaves `message` unbound
(`UnboundLocalError` at `return message`). -/
def Engagement.delete (e : PyObj) (resp : Response) : Except PyError String := do
  let i ← getattr e "id"
  if resp.status == 200 then do
    let n ← getattr e "name"
    pure ("Engagement " ++ fStr n ++ " (" ++ fStr i ++ ") deleted.")
  else if resp.status == 404 then do
    let n ← getattr e "name"
    pure ("Error: Engagement " ++ fStr n ++ " (" ++ fStr i ++ ") not found")
  else .error (.unboundLocal "message")

/-- `Engagement.create`: on 200 the server-assigned id is installed on
the entity and echoed in the message; on 400 the body's `msg` field is
wrapped in an error string and the id is untouched; other statuses leave
`message` unbound. -/
def Engagement.create (e : PyObj) (resp : Response) :
    Except PyError (PyObj × String) :=
  if resp.status == 200 then do
    let i ← subscript resp.body "id"
    let e' := pySetattr e "id" i
    let n ← getattr e' "name"
    pure (e', "Engagement " ++ fStr n ++ " (" ++ fStr i ++ ") created.")
  else if resp.status == 400 then do
    let m ← subscript resp.body "msg"
    pure (e, "Error: " ++ fStr m)
  else .error (.unboundLocal "message")

/-- `Engagement.update`: serialize, then unconditionally
`del data["id"]`, `del data["created_at"]`, `del data["archived"]`
before the request is issued; then branch on the status. -/
def Engagement.update (e : PyObj) (resp : Response) : Except PyError String := do
  let data := toDict e
  let data ← delKey data "id"
  let data ← delKey data "created_at"
  let _data ← delKey data "archived"
  let i ← getattr e "id"
  if resp.status == 200 then do
    let n ← getattr e "name"
    pure ("Engagement " ++ fStr n ++ " (" ++ fStr i ++ ") updated.")
  else if resp.status == 400 then do
    let m ← subscript resp.body "msg"
    pure ("Error: " ++ fStr m)
  else .error (.unboundLocal "message")

/-- `Host.delete`: the URL interpolates `self.host_path`. -/
def Host.delete (h : PyObj) (resp : Response) : Except PyError String := do
  let _p ← getattr h "host_path"
  if resp.status == 200 then do
    let t ← getattr h "target"
    let i ← getattr h "id"
    pure ("Host " ++ fStr t ++ " (" ++ fStr i ++ ") deleted.")
  else if resp.status == 404 then do
    let t ← getattr h "target"
    let i ← getattr h "id"
    pure ("Error: Host " ++ fStr t ++ " (" ++ fStr i ++ ") not found")
  else .error (.unboundLocal "message")

/-- `NotePage.delete`: the URL interpolates `self.notepad_path`; note the
trailing period of the 404 message. -/
def NotePage.delete (np : PyObj) (resp : Response) : Except PyError String := do
  let _p ← getattr np "notepad_path"
  if resp.status == 200 then do
    let t ← getattr np "title"
    let i ← getattr np "id"
    pure ("Note Page " ++ fStr t ++ " (" ++ fStr i ++ ") deleted.")
  else if resp.status == 404 then do
    let t ← getattr np "title"
    let i ← getattr np "id"
    pure ("Error: Note Page " ++ fStr t ++ " (" ++ fStr i ++ ") not found.")
  else .error (.unboundLocal "message")

/-- The request body of `Finding.create`:
`finding_dict = self.to_dict(); del finding_dict["eid"]`. -/
def Finding.createBody (f : PyObj) : Except PyError (List (String × Value)) :=
  delKey (toDict f) "eid"

/-- `Finding.create`: body as above, posted to `self.engagement_path`;
200 installs the returned id, 400 wraps the server `msg`. -/
def Finding.create (f : PyObj) (resp : Response) :
    Except PyError (PyObj × String) := do
  let _body ← Finding.createBody f
  let _url ← getattr f "engagement_path"
  if resp.status == 200 then do
    let i ← subscript resp.body "id"
    let f' := pySetattr f "id" i
    let t ← getattr f' "title"
    pure (f', "Finding " ++ fStr t ++ " (" ++ fStr i ++ ") created.")
  else if resp.status == 400 then do
    let m ← subscript resp.body "msg"
    pure (f, "Error: " ++ fStr m)
  else .error (.unboundLocal "message")

/-- The `finding_dict` fixture of the repository's test suite
(`tests/conftest.py`), as keyword arguments. -/
def findingFixture : PyObj :=
  [("id", .str "abdc1234"), ("eid", .str "46yEw36g"), ("finding_id", .str "01"),
   ("title", .str "Test Finding"), ("environment", .str "Web App"),
   ("category", .str "Injection"), ("risk_level", .str "Critical"),
   ("cvss2_num", .float "5.5"), ("cvss2_str", .str "AV:N/AC:L/Au:S/C:P/I:P/A:N"),
   ("cvss3_num", .float "6.4"), ("cvss3_str", .str "AV:N/AC:L/PR:L/UI:N/S:C/C:L/I:L/A:N"),
   ("dread", .list [.str "9  Admin data", .str "10 Very easy", .str "9  Simple proxy",
     .str "10 All users", .str "5  HTTP requests"]),
   ("background", .str "html"), ("desc_brief", .str "html"), ("desc_full", .str "html"),
   ("impact_brief", .str "html"), ("impact_full", .str "html"),
   ("reco_brief", .str "html"), ("reco_full", .str "html"), ("reco_effort", .str "html"),
   ("targets", .str "html"), ("references", .str "html"), ("evidence", .str "html"),
   ("validation_steps", .str "html"), ("remediation_log", .str "html")]

/-! ## Supporting lemmas -/

lemma pyLookup_append_none : ∀ (a b : PyObj) (k : String),
    pyLookup a k = Option.none → pyLookup b k = Option.none →
    pyLookup (a ++ b) k = Option.none
  | [], _, _, _, hb => hb
  | (k', v) :: rest, b, k, ha, hb => by
    by_cases h : k' = k
    · simp [pyLookup, h] at ha
    · simpa [pyLookup, h] using pyLookup_append_none rest b k (by simpa [pyLookup, h] using ha) hb

/-- `to_dict` only ever emits keys of the instance dictionary. -/
lemma toDict_lookup_none : ∀ (o : PyObj) (k : String),
    pyLookup o k = Option.none → pyLookup (toDict o) k = Option.none
  | [], _, _ => rfl
  | (k', v) :: rest, k, h => by
    by_cases hk : k' = k
    · simp [pyLookup, hk] at h
    · have ih := toDict_lookup_none rest k (by simpa [pyLookup, hk] using h)
      cases v <;> simp only [toDict] <;> try simpa [pyLookup, hk]
      split <;> simpa [pyLookup, hk]

/-- Validation passes through only keys of the supplied mapping. -/
lemma validateItems_lookup_none (rules : List Rule) :
    ∀ (kwargs : PyObj) (k : String) (va : PyObj),
    hasKey kwargs k = false → validateItems rules kwargs = .ok va →
    pyLookup va k = Option.none
  | [], k, va, _, hv => by
    simp only [validateItems] at hv
    cases hv
    rfl
  | (k0, v0) :: rest, k, va, hk, hv => by
    simp only [hasKey, List.any_cons, Bool.or_eq_false_iff] at hk
    have hne : ¬(k0 = k) := by simpa using hk.1
    have hkrest : hasKey rest k = false := by simpa [hasKey] using hk.2
    cases hfr : findRule rules k0 with
    | none =>
      simp only [validateItems, hfr] at hv
      exact validateItems_lookup_none rules rest k va hkrest hv
    | some r =>
      cases hc : r.check v0 with
      | none => simp [validateItems, hfr, hc] at hv
      | some v' =>
        cases hrest : validateItems rules rest with
        | error e => simp [validateItems, hfr, hc, hrest, Except.map] at hv
        | ok tail =>
          simp only [validateItems, hfr, hc, hrest, Except.map, Except.ok.injEq] at hv
          subst hv
          have := validateItems_lookup_none rules rest k tail hkrest hrest
          simpa [pyLookup, hne]

lemma schemaValidate_ok_items {rules : List Rule} {kwargs va : PyObj}
    (h : schemaValidate rules kwargs = .ok va) :
    validateItems rules kwargs = .ok va := by
  unfold schemaValidate at h
  cases hv : validateItems rules kwargs with
  | error e => rw [hv] at h; cases h
  | ok va' =>
    rw [hv] at h
    cases hm : firstMissing rules kwargs with
    | some k => simp [hm, Bind.bind, Except.bind] at h
    | none =>
      cases hw : firstWrong rules kwargs with
      | some k => simp [hm, hw, Bind.bind, Except.bind] at h
      | none =>
        simp [hm, hw, Bind.bind, Except.bind, pure, Except.pure] at h
        rw [h]

lemma deriveSelfPath_shape (o : PyObj) (pk : String) (f : Value → String) :
    ∃ extra, deriveSelfPath o pk f = o ++ extra ∧ ∀ p ∈ extra, p.1 = pk := by
  unfold deriveSelfPath
  cases pyLookup o "id" with
  | none => exact ⟨[], by simp⟩
  | some i => exact ⟨[(pk, Value.str (f i))], rfl, by simp⟩

lemma deriveParentPath_ok {o attrs : PyObj} {k2 pk : String} {f : Value → String}
    (h : deriveParentPath o k2 pk f = .ok attrs) :
    ∃ extra, attrs = o ++ extra ∧ ∀ p ∈ extra, p.1 = pk := by
  unfold deriveParentPath at h
  cases hp : pyLookup o k2 with
  | none => rw [hp] at h; cases h
  | some v =>
    rw [hp] at h
    cases h
    by_cases ht : truthy v
    · exact ⟨[(pk, Value.str (f v))], by simp [ht], by simp⟩
    · exact ⟨[], by simp [ht], by simp⟩

lemma deriveObjectPath_ok {o attrs : PyObj}
    (h : deriveObjectPath o = .ok attrs) :
    ∃ extra, attrs = o ++ extra ∧ ∀ p ∈ extra, p.1 = "object_path" := by
  cases hp : pyLookup o "oid" with
  | none => simp [deriveObjectPath, hp] at h
  | some ov =>
    by_cases hto : truthy ov
    · cases hq : pyLookup o "otype" with
      | none => simp [deriveObjectPath, hp, hto, hq] at h
      | some tv =>
        by_cases htt : truthy tv
        · simp only [deriveObjectPath, hp, hto, hq, htt, if_true, Except.ok.injEq] at h
          exact ⟨[("object_path", _)], h.symm, by simp⟩
        · simp only [deriveObjectPath, hp, hto, hq, htt, if_false, if_true,
            Bool.false_eq_true, Except.ok.injEq] at h
          exact ⟨[], by simp [h.symm], by simp⟩
    · simp only [deriveObjectPath, hp, hto, Bool.false_eq_true, if_false,
        Except.ok.injEq] at h
      exact ⟨[], by simp [h.symm], by simp⟩

lemma stdInit_shape {rules : List Rule} {spk : String} {f1 : Value → String}
    {k2 ppk : String} {f2 : Value → String} {kwargs attrs : PyObj}
    (h : stdInit rules spk f1 k2 ppk f2 kwargs = .ok attrs) :
    ∃ va extra, schemaValidate rules kwargs = .ok va ∧ attrs = va ++ extra ∧
      ∀ p ∈ extra, p.1 = spk ∨ p.1 = ppk := by
  unfold stdInit at h
  cases hv : schemaValidate rules kwargs with
  | error e => rw [hv] at h; simp [Bind.bind, Except.bind] at h
  | ok va =>
    rw [hv] at h
    simp only [Bind.bind, Except.bind] at h
    obtain ⟨e1, he1, hp1⟩ := deriveSelfPath_shape va spk f1
    rw [he1] at h
    obtain ⟨e2, he2, hp2⟩ := deriveParentPath_ok h
    refine ⟨va, e1 ++ e2, rfl, by rw [he2, List.append_assoc], ?_⟩
    intro p hp
    rcases List.mem_append.mp hp with h1 | h2
    · exact Or.inl (hp1 p h1)
    · exact Or.inr (hp2 p h2)

lemma notePageInit_shape {kwargs attrs : PyObj}
    (h : NotePage.init kwargs = .ok attrs) :
    ∃ va extra, schemaValidate notePageRules kwargs = .ok va ∧ attrs = va ++ extra ∧
      ∀ p ∈ extra, p.1 = "notepad_path" ∨ p.1 = "object_path" := by
  unfold NotePage.init at h
  cases hv : schemaValidate notePageRules kwargs with
  | error e => rw [hv] at h; simp [Bind.bind, Except.bind] at h
  | ok va =>
    rw [hv] at h
    simp only [Bind.bind, Except.bind] at h
    obtain ⟨e1, he1, hp1⟩ := deriveSelfPath_shape va "notepad_path"
      (fun i => basePath ++ "/notepages/" ++ fStr i)
    rw [he1] at h
    obtain ⟨e2, he2, hp2⟩ := deriveObjectPath_ok h
    refine ⟨va, e1 ++ e2, rfl, by rw [he2, List.append_assoc], ?_⟩
    intro p hp
    rcases List.mem_append.mp hp with h1 | h2
    · exact Or.inl (hp1 p h1)
    · exact Or.inr (hp2 p h2)

lemma findRule_mem : ∀ (rules : List Rule) (k : String) (r : Rule),
    findRule rules k = some r → r ∈ rules ∧ r.key = k
  | [], _, _, h => by cases h
  | r0 :: rest, k, r, h => by
    by_cases hk : r0.key = k
    · simp only [findRule, if_pos hk] at h
      cases h
      exact ⟨List.mem_cons_self _ _, hk⟩
    · simp only [findRule, if_neg hk] at h
      obtain ⟨hm, he⟩ := findRule_mem rest k r h
      exact ⟨List.mem_cons_of_mem _ hm, he⟩

lemma pyLookup_none_of_keys : ∀ (extra : PyObj) (a b k : String),
    (∀ p ∈ extra, p.1 = a ∨ p.1 = b) → k ≠ a → k ≠ b →
    pyLookup extra k = Option.none
  | [], _, _, _, _, _, _ => rfl
  | p :: rest, a, b, k, hall, hka, hkb => by
    have hp := hall p (List.mem_cons_self _ _)
    have hne : ¬(p.1 = k) := by
      rcases hp with h | h
      · rw [h]; exact fun hc => hka hc.symm
      · rw [h]; exact fun hc => hkb hc.symm
    obtain ⟨k', v⟩ := p
    simp only [pyLookup, if_neg hne]
    exact pyLookup_none_of_keys rest a b k
      (fun q hq => hall q (List.mem_cons_of_mem _ hq)) hka hkb

/-- Omitted declared fields are absent from a `stdInit`-built entity and
from its serialization. -/
lemma stdInit_absent {rules : List Rule} {spk : String} {f1 : Value → String}
    {k2 ppk : String} {f2 : Value → String} {kwargs attrs : PyObj} {k : String}
    (hnp : ∀ r ∈ rules, r.key ≠ spk ∧ r.key ≠ ppk)
    (h : stdInit rules spk f1 k2 ppk f2 kwargs = .ok attrs)
    (hr : (findRule rules k).isSome) (hk : hasKey kwargs k = false) :
    pyLookup attrs k = Option.none ∧ pyLookup (toDict attrs) k = Option.none := by
  obtain ⟨va, extra, hv, rfl, hext⟩ := stdInit_shape h
  obtain ⟨r, hmem, hkey⟩ : ∃ r, r ∈ rules ∧ r.key = k := by
    cases hfr : findRule rules k with
    | none => rw [hfr] at hr; cases hr
    | some r => exact ⟨r, findRule_mem rules k r hfr⟩
  have hka : k ≠ spk := hkey ▸ (hnp r hmem).1
  have hkb : k ≠ ppk := hkey ▸ (hnp r hmem).2
  have h1 : pyLookup va k = Option.none :=
    validateItems_lookup_none rules kwargs k va hk (schemaValidate_ok_items hv)
  have h2 : pyLookup extra k = Option.none :=
    pyLookup_none_of_keys extra spk ppk k hext hka hkb
  have h3 := pyLookup_append_none va extra k h1 h2
  exact ⟨h3, toDict_lookup_none _ k h3⟩

/-- `stdInit_absent` for the `NotePage` constructor. -/
lemma notePageInit_absent {kwargs attrs : PyObj} {k : String}
    (h : NotePage.init kwargs = .ok attrs)
    (hr : (findRule notePageRules k).isSome) (hk : hasKey kwargs k = false) :
    pyLookup attrs k = Option.none ∧ pyLookup (toDict attrs) k = Option.none := by
  obtain ⟨va, extra, hv, rfl, hext⟩ := notePageInit_shape h
  obtain ⟨r, hmem, hkey⟩ : ∃ r, r ∈ notePageRules ∧ r.key = k := by
    cases hfr : findRule notePageRules k with
    | none => rw [hfr] at hr; cases hr
    | some r => exact ⟨r, findRule_mem notePageRules k r hfr⟩
  have hnp : ∀ r ∈ notePageRules, r.key ≠ "notepad_path" ∧ r.key ≠ "object_path" := by decide
  have hka : k ≠ "notepad_path" := hkey ▸ (hnp r hmem).1
  have hkb : k ≠ "object_path" := hkey ▸ (hnp r hmem).2
  have h1 : pyLookup va k = Option.none :=
    validateItems_lookup_none notePageRules kwargs k va hk (schemaValidate_ok_items hv)
  have h2 : pyLookup extra k = Option.none :=
    pyLookup_none_of_keys extra "notepad_path" "object_path" k hext hka hkb
  have h3 := pyLookup_append_none va extra k h1 h2
  exact ⟨h3, toDict_lookup_none _ k h3⟩

/-- The `to_dict` serializer never emits a float-valued attribute. -/
lemma toDict_no_float : ∀ (o : PyObj) (k : String) (v : Value),
    (k, v) ∈ toDict o → ∀ lit, v ≠ .float lit
  | [], k, v, h => by cases h
  | (k', v') :: rest, k, v, h => by
    intro lit
    cases v' <;> simp only [toDict] at h
    case str s =>
      split at h
      · exact toDict_no_float rest k v h lit
      · rcases List.mem_cons.mp h with h1 | h1
        · intro hc; rw [hc] at h1; cases h1
        · exact toDict_no_float rest k v h1 lit
    all_goals
      first
      | exact toDict_no_float rest k v h lit
      | (rcases List.mem_cons.mp h with h1 | h1
         · intro hc; rw [hc] at h1; cases h1
         · exact toDict_no_float rest k v h1 lit)

/-! ## The claims -/

/-- C1: constructing an Engagement from `{name: "Engagement 1",
notes: "<strong>Test 1</strong>", client_id: "",
created_at: "2021-02-05T19:59:27.104Z"}` and immediately serializing it
with `to_dict` reproduces exactly that mapping, with `created_at`
re-emitted as the string `"2021-02-05T19:59:27.104Z"` (round trip through
the datetime parse on input and the millisecond-truncated `Z`-suffixed
format on output). -/
theorem engagement_roundtrip_c1 :
    (Engagement.init (.str "Engagement 1") (.str "") (.str "2021-02-05T19:59:27.104Z")
      (.str "<strong>Test 1</strong>") (.str "") (.str "")).map toDict =
    .ok [("name", .str "Engagement 1"), ("notes", .str "<strong>Test 1</strong>"),
         ("client_id", .str ""), ("created_at", .str "2021-02-05T19:59:27.104Z")] := rfl

/-- C3 counterexample: constructing a Host from a field mapping that lacks
the parent-identifier field `eid` (here, the minimal valid mapping
`{target: "1.2.3.4"}`) does not succeed with the address simply not
created: the bare `if self.eid:` raises `AttributeError`. -/
theorem host_missing_parent_c3_counterexample :
    Host.init [("target", .str "1.2.3.4")] = .error (.attributeError "eid") := rfl

/-- C3 amended: for every resource type, omitting the identity field is
tolerated — the try/except-guarded self-address is simply not created —
but omitting the parent-identifier field (`eid` for Host/Finding, `hid`
for Port/Scratchpad, `oid` for NotePage) makes construction raise
`AttributeError` at the bare `if self.<parent>:` check of the
path-derivation step. -/
theorem path_derivation_c3_amended :
    ((Host.init [("target", .str "1.1.1.1"), ("eid", .str "ZaAvk46j")]).map
      (fun o => pyLookup o "host_path") = .ok Option.none) ∧
    Host.init [("target", .str "1.1.1.1")] = .error (.attributeError "eid") ∧
    ((Port.init [("port", .int 22), ("hid", .str "za4AlEP6")]).map
      (fun o => pyLookup o "port_path") = .ok Option.none) ∧
    Port.init [("port", .int 22)] = .error (.attributeError "hid") ∧
    ((Finding.init [("title", .str "Test Finding"), ("eid", .str "46yEw36g")]).map
      (fun o => pyLookup o "finding_path") = .ok Option.none) ∧
    Finding.init [("title", .str "Test Finding")] = .error (.attributeError "eid") ∧
    ((Scratchpad.init [("title", .str "README.md"), ("hid", .str "za4AlEP6")]).map
      (fun o => pyLookup o "scratchpad_path") = .ok Option.none) ∧
    Scratchpad.init [("title", .str "README.md")] = .error (.attributeError "hid") ∧
    ((NotePage.init [("title", .str "Note"), ("oid", .str "46yEw36g"), ("otype", .str "e")]).map
      (fun o => pyLookup o "notepad_path") = .ok Option.none) ∧
    NotePage.init [("title", .str "Note")] = .error (.attributeError "oid") :=
  ⟨rfl, rfl, rfl, rfl, rfl, rfl, rfl, rfl, rfl, rfl⟩

/-- C5: a value violating a field's format constraint makes construction
fail with that constraint's specific associated message, verbatim, and no
entity is returned: every out-of-range integer port (e.g. 70000) yields
`"port" should be an intiger between 0 and 65,535.` (sic), the malformed
target `"1.2.3.4.5"` yields `Target should be a valid IPv4 Address`, and
the unknown `os_type` `"invented"` yields `Not a valid "os_type".`. -/
theorem invalid_value_message_c5 :
    (∀ p : Int, ¬(0 ≤ p ∧ p ≤ 65535) →
      Port.init [("port", .int p)] =
        .error (.schemaError "\"port\" should be an intiger between 0 and 65,535.")) ∧
    Host.init [("target", .str "1.2.3.4.5"), ("eid", .str "ZaAvk46j")] =
      .error (.schemaError "Target should be a valid IPv4 Address") ∧
    Host.init [("target", .str "1.1.1.1"), ("os_type", .str "invented"), ("eid", .str "ZaAvk46j")] =
      .error (.schemaError "Not a valid \"os_type\".") := by
  refine ⟨?_, rfl, rfl⟩
  intro p hp
  have hfr : findRule portRules "port" =
      some ⟨"port", true, checkPort, "\"port\" should be an intiger between 0 and 65,535."⟩ := rfl
  simp only [Port.init, stdInit, schemaValidate, validateItems, hfr, checkPort,
    Bind.bind, Except.bind, if_neg hp]

/-- C5 witness: the concrete out-of-range port 70000 from the claim. -/
theorem invalid_value_message_c5_witness :
    ¬(0 ≤ (70000 : Int) ∧ (70000 : Int) ≤ 65535) ∧
    Port.init [("port", .int 70000)] =
      .error (.schemaError "\"port\" should be an intiger between 0 and 65,535.") :=
  ⟨by decide, invalid_value_message_c5.1 70000 (by decide)⟩

/-- C7: an Engagement `create` whose response is HTTP 200 with body
`{"id": "za4Kz7oy"}` installs `"za4Kz7oy"` as the entity's id and returns
`"Engagement <name> (za4Kz7oy) created."`; a 400 response instead returns
`"Error: "` followed by the server's `msg` field, and the id is not
assigned. -/
theorem engagement_create_c7 (n m : String) :
    (Engagement.create [("name", Value.str n), ("notes", Value.str ""), ("client_id", Value.str "")]
      ⟨200, .dict [("id", Value.str "za4Kz7oy")]⟩ =
      .ok ([("name", Value.str n), ("notes", Value.str ""), ("client_id", Value.str ""),
            ("id", Value.str "za4Kz7oy")], "Engagement " ++ n ++ " (za4Kz7oy) created.")) ∧
    (Engagement.create [("name", Value.str n), ("notes", Value.str ""), ("client_id", Value.str "")]
      ⟨400, .dict [("msg", Value.str m)]⟩ =
      .ok ([("name", Value.str n), ("notes", Value.str ""), ("client_id", Value.str "")],
        "Error: " ++ m)) := by
  constructor
  · simp only [Engagement.create, subscript, pyLookup, pySetattr, getattr, fStr,
      Bind.bind, Except.bind, pure, Except.pure]
    simp only [String.append_assoc]
    norm_num
    exact ⟨rfl, rfl⟩
  · rfl

/-- C2 counterexample: `Engagement.get` is a get-style operation, yet a
404 on its final fetch neither aborts the process nor fails: the
unchecked response body is passed straight to the constructor and a value
is returned. -/
theorem engagement_get_no_abort_c2_counterexample :
    Engagement.get "Engagement 1"
      ⟨200, .list [.dict [("name", .str "Engagement 1"), ("id", .str "7aBB7za9")]]⟩
      ⟨404, .dict [("name", .str "Engagement 1")]⟩ =
    .ok [("name", .str "Engagement 1"), ("notes", .str ""), ("client_id", .str "")] := rfl

/-- C2 amended: `Host.get`, `Port.get`, `Scratchpad.get` and
`NotePage.get` abort via `SystemExit` exactly when the response status is
in `[400, 600)` (the `raise_for_status` `HTTPError` range — a non-2xx 3xx
passes straight through to the constructor); `Engagement.get` performs no
status check at all, so its outcome is independent of the status code of
the fetch response. -/
theorem get_abort_c2_amended :
    (∀ hid (resp : Response), 400 ≤ resp.status → resp.status < 600 →
      Host.get hid resp = .error (.systemExit resp.status)) ∧
    (∀ pid (resp : Response), 400 ≤ resp.status → resp.status < 600 →
      Port.get pid resp = .error (.systemExit resp.status)) ∧
    (∀ sid (resp : Response), 400 ≤ resp.status → resp.status < 600 →
      Scratchpad.get sid resp = .error (.systemExit resp.status)) ∧
    (∀ nid (resp : Response), 400 ≤ resp.status → resp.status < 600 →
      NotePage.get nid resp = .error (.systemExit resp.status)) ∧
    (∀ hid (b : Value), Host.get hid ⟨304, b⟩ = (asKwargs b >>= Host.init)) ∧
    (∀ name (allResp : Response) (s1 s2 : Nat) (b : Value),
      Engagement.get name allResp ⟨s1, b⟩ = Engagement.get name allResp ⟨s2, b⟩) := by
  refine ⟨?_, ?_, ?_, ?_, fun _ _ => rfl, fun _ _ _ _ _ => rfl⟩
  · intro hid resp h1 h2
    unfold Host.get raiseForStatus
    rw [if_pos (⟨h1, h2⟩ : 400 ≤ resp.status ∧ resp.status < 600)]
  · intro pid resp h1 h2
    unfold Port.get raiseForStatus
    rw [if_pos (⟨h1, h2⟩ : 400 ≤ resp.status ∧ resp.status < 600)]
  · intro sid resp h1 h2
    unfold Scratchpad.get raiseForStatus
    rw [if_pos (⟨h1, h2⟩ : 400 ≤ resp.status ∧ resp.status < 600)]
  · intro nid resp h1 h2
    unfold NotePage.get raiseForStatus
    rw [if_pos (⟨h1, h2⟩ : 400 ≤ resp.status ∧ resp.status < 600)]

/-- C2 witness: the aborts at concrete statuses 404 and 500, the
pass-through at 304, and the status-independence of `Engagement.get` at a
concrete pair of responses. -/
theorem get_abort_c2_witness :
    Host.get "No3e25l6" ⟨404, .dict []⟩ = .error (.systemExit 404) ∧
    Port.get "56VqkKba" ⟨500, .dict []⟩ = .error (.systemExit 500) ∧
    Scratchpad.get "1abWR16y" ⟨404, .dict []⟩ = .error (.systemExit 404) ∧
    NotePage.get "1ab5Mqoy" ⟨404, .dict []⟩ = .error (.systemExit 404) ∧
    Host.get "No3e25l6" ⟨304, .dict [("target", .str "1.2.3.4"), ("eid", .str "ZaAvk46j")]⟩ =
      (asKwargs (.dict [("target", .str "1.2.3.4"), ("eid", .str "ZaAvk46j")]) >>= Host.init) ∧
    Engagement.get "Engagement 1" ⟨200, .list []⟩ ⟨404, .dict [("name", .str "E")]⟩ =
      Engagement.get "Engagement 1" ⟨200, .list []⟩ ⟨200, .dict [("name", .str "E")]⟩ :=
  ⟨get_abort_c2_amended.1 "No3e25l6" ⟨404, .dict []⟩ (by norm_num) (by norm_num),
   get_abort_c2_amended.2.1 "56VqkKba" ⟨500, .dict []⟩ (by norm_num) (by norm_num),
   get_abort_c2_amended.2.2.1 "1abWR16y" ⟨404, .dict []⟩ (by norm_num) (by norm_num),
   get_abort_c2_amended.2.2.2.1 "1ab5Mqoy" ⟨404, .dict []⟩ (by norm_num) (by norm_num),
   get_abort_c2_amended.2.2.2.2.1 "No3e25l6" (.dict [("target", .str "1.2.3.4"), ("eid", .str "ZaAvk46j")]),
   get_abort_c2_amended.2.2.2.2.2 "Engagement 1" ⟨200, .list []⟩ 404 200 (.dict [("name", .str "E")])⟩

/-- C4 counterexample: `Engagement` stores the optional fields `notes`
and `client_id` even when they are absent from the input mapping — the
`""` defaults are installed unconditionally and re-emitted by `to_dict`,
not left absent. -/
theorem engagement_default_fields_c4_counterexample :
    (Engagement.fromKwargs [("name", .str "Engagement 1")]).map toDict =
      .ok [("name", .str "Engagement 1"), ("notes", .str ""), ("client_id", .str "")] := rfl

/-- C4 amended: for the five schema-validated resource types (Host, Port,
Finding, Scratchpad, NotePage) every declared field that is absent from
the input mapping is absent from the constructed entity and from its
`to_dict` serialization.  For Engagement only `id`, `created_at` and
`archived` behave this way: an omitted `notes` or `client_id` is stored
as the `""` default and appears (as `""`) in `to_dict`. -/
theorem optional_absent_c4_amended :
    (∀ kwargs attrs k, Host.init kwargs = .ok attrs → (findRule hostRules k).isSome →
      hasKey kwargs k = false →
      pyLookup attrs k = Option.none ∧ pyLookup (toDict attrs) k = Option.none) ∧
    (∀ kwargs attrs k, Port.init kwargs = .ok attrs → (findRule portRules k).isSome →
      hasKey kwargs k = false →
      pyLookup attrs k = Option.none ∧ pyLookup (toDict attrs) k = Option.none) ∧
    (∀ kwargs attrs k, Finding.init kwargs = .ok attrs → (findRule findingRules k).isSome →
      hasKey kwargs k = false →
      pyLookup attrs k = Option.none ∧ pyLookup (toDict attrs) k = Option.none) ∧
    (∀ kwargs attrs k, Scratchpad.init kwargs = .ok attrs → (findRule scratchpadRules k).isSome →
      hasKey kwargs k = false →
      pyLookup attrs k = Option.none ∧ pyLookup (toDict attrs) k = Option.none) ∧
    (∀ kwargs attrs k, NotePage.init kwargs = .ok attrs → (findRule notePageRules k).isSome →
      hasKey kwargs k = false →
      pyLookup attrs k = Option.none ∧ pyLookup (toDict attrs) k = Option.none) ∧
    (∀ n e, Engagement.fromKwargs [("name", Value.str n)] = .ok e →
      pyLookup e "id" = Option.none ∧ pyLookup e "created_at" = Option.none ∧
      pyLookup e "archived" = Option.none ∧
      pyLookup (toDict e) "notes" = some (Value.str "") ∧
      pyLookup (toDict e) "client_id" = some (Value.str "")) := by
  refine ⟨fun kwargs attrs k h hr hk => stdInit_absent (by decide) h hr hk,
    fun kwargs attrs k h hr hk => stdInit_absent (by decide) h hr hk,
    fun kwargs attrs k h hr hk => stdInit_absent (by decide) h hr hk,
    fun kwargs attrs k h hr hk => stdInit_absent (by decide) h hr hk,
    fun kwargs attrs k h hr hk => notePageInit_absent h hr hk, ?_⟩
  intro n e h
  rw [show Engagement.fromKwargs [("name", Value.str n)] =
    .ok [("name", Value.str n), ("notes", Value.str ""), ("client_id", Value.str "")] from rfl] at h
  cases h
  exact ⟨rfl, rfl, rfl, rfl, rfl⟩

/-- C4 witness: a Host built without its optional `notes` field has no
`notes` attribute and no `notes` key in `to_dict`; an Engagement built
from `{name: "Engagement 1"}` lacks `id`/`created_at`/`archived` but
serializes `notes`/`client_id` as `""`. -/
theorem optional_absent_c4_witness :
    (pyLookup [("target", Value.str "1.2.3.4"), ("eid", Value.str "ZaAvk46j"),
        ("engagement_path", Value.str "https://pentest.ws/api/v1/e/ZaAvk46j/hosts")]
        "notes" = Option.none ∧
      pyLookup (toDict [("target", Value.str "1.2.3.4"), ("eid", Value.str "ZaAvk46j"),
        ("engagement_path", Value.str "https://pentest.ws/api/v1/e/ZaAvk46j/hosts")])
        "notes" = Option.none) ∧
    (pyLookup [("name", Value.str "Engagement 1"), ("notes", Value.str ""),
        ("client_id", Value.str "")] "id" = Option.none ∧
      pyLookup [("name", Value.str "Engagement 1"), ("notes", Value.str ""),
        ("client_id", Value.str "")] "created_at" = Option.none ∧
      pyLookup [("name", Value.str "Engagement 1"), ("notes", Value.str ""),
        ("client_id", Value.str "")] "archived" = Option.none ∧
      pyLookup (toDict [("name", Value.str "Engagement 1"), ("notes", Value.str ""),
        ("client_id", Value.str "")]) "notes" = some (Value.str "") ∧
      pyLookup (toDict [("name", Value.str "Engagement 1"), ("notes", Value.str ""),
        ("client_id", Value.str "")]) "client_id" = some (Value.str "")) :=
  ⟨optional_absent_c4_amended.1 [("target", Value.str "1.2.3.4"), ("eid", Value.str "ZaAvk46j")]
      [("target", Value.str "1.2.3.4"), ("eid", Value.str "ZaAvk46j"),
        ("engagement_path", Value.str "https://pentest.ws/api/v1/e/ZaAvk46j/hosts")]
      "notes" rfl rfl rfl,
   optional_absent_c4_amended.2.2.2.2.2 "Engagement 1"
      [("name", Value.str "Engagement 1"), ("notes", Value.str ""), ("client_id", Value.str "")] rfl⟩

/-- C6: the Host `target` field is accepted exactly when it parses as a
valid IPv4 or IPv6 address, and the stored value is the canonical string
form of the parsed address rather than the raw input: the invalid
dotted-quad `"456.1.1.1"` is rejected, while an IPv6 literal with leading
zeros and a zero run is normalized (`2001:0db8:85a3:0000:0000:8a2e:0370:7334`
is stored as `2001:db8:85a3::8a2e:370:7334`); a string containing `'/'`
(such as `"::1%a/b"`) is rejected by the constructors' slash guard before
any parsing. -/
theorem target_canonical_c6 :
    (∀ s : String, (Host.init [("target", Value.str s), ("eid", Value.str "ZaAvk46j")]).isOk =
       (ipAddress s).isSome) ∧
    (∀ s a, ipAddress s = some a →
       ∃ rest, Host.init [("target", Value.str s), ("eid", Value.str "ZaAvk46j")] =
         .ok (("target", Value.str (strOfIP a)) :: rest)) ∧
    ipAddress "456.1.1.1" = Option.none ∧
    ipAddress "::1%a/b" = Option.none ∧
    (Host.init [("target", .str "2001:0db8:85a3:0000:0000:8a2e:0370:7334"),
        ("eid", .str "ZaAvk46j")]).map (fun o => pyLookup o "target") =
      .ok (some (.str "2001:db8:85a3::8a2e:370:7334")) ∧
    (Host.init [("target", .str "1.2.3.4"), ("eid", .str "ZaAvk46j")]).map
      (fun o => pyLookup o "target") = .ok (some (.str "1.2.3.4")) := by
  have hfr : findRule hostRules "target" =
      some ⟨"target", true, checkTarget, "Target should be a valid IPv4 Address"⟩ := rfl
  have h2 : validateItems hostRules [("eid", Value.str "ZaAvk46j")] =
      .ok [("eid", Value.str "ZaAvk46j")] := rfl
  refine ⟨?_, ?_, rfl, rfl, rfl, rfl⟩
  · intro s
    cases h : ipAddress s with
    | none =>
      simp only [Host.init, stdInit, schemaValidate, validateItems, hfr, checkTarget, h,
        Bind.bind, Except.bind]
      rfl
    | some a =>
      simp only [Host.init, stdInit, schemaValidate, validateItems, hfr, checkTarget, h,
        h2, Except.map, Bind.bind, Except.bind]
      rfl
  · intro s a h
    refine ⟨[("eid", Value.str "ZaAvk46j"),
      ("engagement_path", Value.str "https://pentest.ws/api/v1/e/ZaAvk46j/hosts")], ?_⟩
    simp only [Host.init, stdInit, schemaValidate, validateItems, hfr, checkTarget, h,
      h2, Except.map, Bind.bind, Except.bind]
    rfl

/-- C6 witness: the valid target `"1.2.3.4"` parses (to integer 16909060)
and is stored in canonical form. -/
theorem target_canonical_c6_witness :
    ipAddress "1.2.3.4" = some (.v4 16909060) ∧
    (∃ rest, Host.init [("target", Value.str "1.2.3.4"), ("eid", Value.str "ZaAvk46j")] =
      .ok (("target", Value.str (strOfIP (.v4 16909060))) :: rest)) :=
  ⟨rfl, target_canonical_c6.2.1 "1.2.3.4" (.v4 16909060) rfl⟩

/-- C8: for every resource type exposing `delete` (Engagement, Host,
NotePage), a delete whose response is 404 returns — never raises — a
message that begins with `"Error: "` and contains the resource's
identity, and a 200 response returns a confirmation string containing
the identity. -/
theorem delete_message_c8 (n i t tl hp np : String) (b : Value) :
    (∃ r q, Engagement.delete
        [("id", Value.str i), ("name", Value.str n), ("notes", Value.str ""), ("client_id", Value.str "")]
        ⟨404, b⟩ = .ok ("Error: " ++ (r ++ (i ++ q)))) ∧
    (∃ p q, Engagement.delete
        [("id", Value.str i), ("name", Value.str n), ("notes", Value.str ""), ("client_id", Value.str "")]
        ⟨200, b⟩ = .ok (p ++ (i ++ q))) ∧
    (∃ r q, Host.delete [("target", Value.str t), ("id", Value.str i), ("host_path", Value.str hp)]
        ⟨404, b⟩ = .ok ("Error: " ++ (r ++ (i ++ q)))) ∧
    (∃ p q, Host.delete [("target", Value.str t), ("id", Value.str i), ("host_path", Value.str hp)]
        ⟨200, b⟩ = .ok (p ++ (i ++ q))) ∧
    (∃ r q, NotePage.delete [("title", Value.str tl), ("id", Value.str i), ("notepad_path", Value.str np)]
        ⟨404, b⟩ = .ok ("Error: " ++ (r ++ (i ++ q)))) ∧
    (∃ p q, NotePage.delete [("title", Value.str tl), ("id", Value.str i), ("notepad_path", Value.str np)]
        ⟨200, b⟩ = .ok (p ++ (i ++ q))) := by
  refine ⟨⟨"Engagement " ++ n ++ " (", ") not found", ?_⟩,
    ⟨"Engagement " ++ n ++ " (", ") deleted.", ?_⟩,
    ⟨"Host " ++ t ++ " (", ") not found", ?_⟩,
    ⟨"Host " ++ t ++ " (", ") deleted.", ?_⟩,
    ⟨"Note Page " ++ tl ++ " (", ") not found.", ?_⟩,
    ⟨"Note Page " ++ tl ++ " (", ") deleted.", ?_⟩⟩ <;>
  · simp only [Engagement.delete, Host.delete, NotePage.delete, getattr, pyLookup, fStr,
      Bind.bind, Except.bind, pure, Except.pure]
    norm_num
    simp only [String.append_assoc]
    rfl

/-- C9: `to_dict` only emits datetime, string, boolean, integer and list
values, so a float-valued attribute is silently omitted from every
serialization; in particular a Finding whose `cvss2_num` / `cvss3_num`
passed validation as floats never includes those scores in the
`create` request body. -/
theorem float_omitted_c9 :
    (∀ (o : PyObj) (k : String) (v : Value), (k, v) ∈ toDict o → ∀ lit, v ≠ .float lit) ∧
    (∀ (f body : PyObj), Finding.createBody f = .ok body →
       ∀ k v, (k, v) ∈ body → ∀ lit, v ≠ .float lit) ∧
    (∃ f, Finding.init findingFixture = .ok f ∧
       pyLookup f "cvss2_num" = some (.float "5.5") ∧
       pyLookup f "cvss3_num" = some (.float "6.4") ∧
       pyLookup (toDict f) "cvss2_num" = Option.none ∧
       pyLookup (toDict f) "cvss3_num" = Option.none ∧
       ∃ body, Finding.createBody f = .ok body ∧
         pyLookup body "cvss2_num" = Option.none ∧
         pyLookup body "cvss3_num" = Option.none) := by
  refine ⟨toDict_no_float, ?_, ⟨_, rfl, rfl, rfl, rfl, rfl, _, rfl, rfl, rfl⟩⟩
  intro f body h k v hm lit
  unfold Finding.createBody delKey at h
  cases hp : pyLookup (toDict f) "eid" with
  | none => rw [hp] at h; cases h
  | some x =>
    rw [hp] at h
    cases h
    exact toDict_no_float f k v (List.mem_filter.mp hm).1 lit

/-- C9 witness: concrete instantiations of both universal parts — a float
attribute next to a kept string attribute, and a concrete create body. -/
theorem float_omitted_c9_witness :
    (("notes", Value.str "Note") ∈ toDict [("notes", Value.str "Note"), ("cvss2_num", Value.float "5.5")] ∧
      Value.str "Note" ≠ Value.float "5.5") ∧
    (Finding.createBody [("eid", Value.str "46yEw36g"), ("title", Value.str "T"),
        ("cvss2_num", Value.float "5.5")] = .ok [("title", Value.str "T")] ∧
      Value.str "T" ≠ Value.float "5.5") :=
  ⟨⟨by simp [toDict]; exact ⟨rfl, rfl⟩,
    float_omitted_c9.1 [("notes", Value.str "Note"), ("cvss2_num", Value.float "5.5")]
      "notes" (Value.str "Note") (by simp [toDict]; exact ⟨rfl, rfl⟩) "5.5"⟩,
   ⟨rfl,
    float_omitted_c9.2.1 [("eid", Value.str "46yEw36g"), ("title", Value.str "T"),
        ("cvss2_num", Value.float "5.5")] [("title", Value.str "T")] rfl
      "title" (Value.str "T") (by simp) "5.5"⟩⟩

/-- C10: `Engagement.update` unconditionally deletes `"id"`,
`"created_at"` and `"archived"` from the serialized mapping before the
request is issued, so every Engagement constructed without a
`created_at` value or without an `archived` value makes `update` raise a
`KeyError` — for any response whatsoever, i.e. before any HTTP exchange
matters — instead of returning a result string. -/
theorem update_keyerror_c10 (n no c i a : String) (e : PyObj) (resp : Response) :
    (Engagement.init (.str n) (.str i) (.str "") (.str no) (.str c) (.str a) = .ok e →
      ∃ k, Engagement.update e resp = .error (.keyError k)) ∧
    (Engagement.init (.str n) (.str i) (.str a) (.str no) (.str c) (.str "") = .ok e →
      ∃ k, Engagement.update e resp = .error (.keyError k)) := by
  constructor
  · intro h
    by_cases hi : i = ""
    · subst hi
      by_cases ha : a = ""
      · subst ha
        rw [show Engagement.init (.str n) (.str "") (.str "") (.str no) (.str c) (.str "") =
          .ok [("name", Value.str n), ("notes", Value.str no), ("client_id", Value.str c)] from rfl] at h
        cases h
        exact ⟨"id", rfl⟩
      · cases hst : strptimeTZ a with
        | none =>
          simp [Engagement.init, parseTimestampArg, if_neg ha, hst, Bind.bind, Except.bind] at h
        | some d =>
          simp [Engagement.init, parseTimestampArg, if_neg ha, hst, Bind.bind, Except.bind,
            pure, Except.pure] at h
          subst h
          exact ⟨"id", rfl⟩
    · have hbf : (i == "") = false := beq_eq_false_iff_ne.mpr hi
      have hbv : (Value.str i == Value.str "") = (i == "") := rfl
      by_cases ha : a = ""
      · subst ha
        simp [Engagement.init, parseTimestampArg, hbv, hbf, Bind.bind, Except.bind,
          pure, Except.pure] at h
        subst h
        exact ⟨"created_at", rfl⟩
      · cases hst : strptimeTZ a with
        | none =>
          simp [Engagement.init, parseTimestampArg, hbv, hbf, if_neg ha, hst,
            Bind.bind, Except.bind] at h
        | some d =>
          simp [Engagement.init, parseTimestampArg, hbv, hbf, if_neg ha, hst,
            Bind.bind, Except.bind, pure, Except.pure] at h
          subst h
          exact ⟨"created_at", rfl⟩
  · intro h
    by_cases hi : i = ""
    · subst hi
      by_cases ha : a = ""
      · subst ha
        rw [show Engagement.init (.str n) (.str "") (.str "") (.str no) (.str c) (.str "") =
          .ok [("name", Value.str n), ("notes", Value.str no), ("client_id", Value.str c)] from rfl] at h
        cases h
        exact ⟨"id", rfl⟩
      · cases hst : strptimeTZ a with
        | none =>
          simp [Engagement.init, parseTimestampArg, if_neg ha, hst, Bind.bind, Except.bind] at h
        | some d =>
          simp [Engagement.init, parseTimestampArg, if_neg ha, hst, Bind.bind, Except.bind,
            pure, Except.pure] at h
          subst h
          exact ⟨"id", rfl⟩
    · have hbf : (i == "") = false := beq_eq_false_iff_ne.mpr hi
      have hbv : (Value.str i == Value.str "") = (i == "") := rfl
      by_cases ha : a = ""
      · subst ha
        simp [Engagement.init, parseTimestampArg, hbv, hbf, Bind.bind, Except.bind,
          pure, Except.pure] at h
        subst h
        exact ⟨"created_at", rfl⟩
      · cases hst : strptimeTZ a with
        | none =>
          simp [Engagement.init, parseTimestampArg, hbv, hbf, if_neg ha, hst,
            Bind.bind, Except.bind] at h
        | some d =>
          simp [Engagement.init, parseTimestampArg, hbv, hbf, if_neg ha, hst,
            Bind.bind, Except.bind, pure, Except.pure] at h
          subst h
          exact ⟨"archived", rfl⟩

/-- C10 witness: the test fixture Engagement (id, name, created_at, no
archived) makes `update` raise `KeyError` even on a 200 response. -/
theorem update_keyerror_c10_witness :
    ∃ k, Engagement.update
      [("id", Value.str "7aBB7za9"), ("name", Value.str "Engagement 1"),
       ("notes", Value.str ""), ("client_id", Value.str ""),
       ("created_at", Value.dt ⟨2021, 2, 5, 19, 59, 27, 104000⟩)]
      ⟨200, .dict []⟩ = .error (.keyError k) :=
  (update_keyerror_c10 "Engagement 1" "" "" "7aBB7za9" "2021-02-05T19:59:27.104Z"
    [("id", Value.str "7aBB7za9"), ("name", Value.str "Engagement 1"),
     ("notes", Value.str ""), ("client_id", Value.str ""),
     ("created_at", Value.dt ⟨2021, 2, 5, 19, 59, 27, 104000⟩)]
    ⟨200, .dict []⟩).2 rfl

end PWS
